import Mathlib

/-!
Verification of the dc_generator point-of-sale system.

The Python sources are shallowly embedded: Python floats are modelled by ℚ
(the financial arithmetic in the sources uses only +, -, * and comparisons),
Python strings by `String`, Python dictionaries of incentive rules by
functions `String → Option IncentiveRule`, and pandas columns by
`List String` (with `Option` marking an absent column).  Fallible Python
parsing (`int(...)`, `float(...)`, `pd.to_numeric(..., errors='coerce')`)
is modelled by `Option`-valued parsers.
-/

namespace DCGen

/-! ### Constants (finance_helper.py / app.py) -/

def HP_FEE_DEFAULT : ℚ := 2000
def HP_FEE_BANK_QUOTATION : ℚ := 500
def GST_RATE_CALC : ℚ := 0

/-! ### calculate_finance_fees  (finance_helper.py:14-41)

An incentive rule is a dictionary `{'type': ..., 'value': ...}`; the rule
mapping `incentive_rules` is a dictionary keyed by financier name, embedded
as a function into `Option`. -/

structure IncentiveRule where
  rtype : String
  value : ℚ
deriving DecidableEq

def calculate_finance_fees (financier_name : String) (dd_amount : ℚ)
    (out_finance_flag : Bool) (incentive_rules : String → Option IncentiveRule) :
    ℚ × ℚ :=
  if out_finance_flag then
    -- SCENARIO 2: Out Finance (2000 HP fee, no incentive)
    (HP_FEE_DEFAULT, 0)
  else if financier_name = "Bank" then
    -- SCENARIO 1: Bank quotation (500 HP fee, no incentive)
    (HP_FEE_BANK_QUOTATION, 0)
  else
    -- SCENARIO 3: other financiers (full HP + incentive)
    let incentive_earned : ℚ :=
      match incentive_rules financier_name with
      | some rule =>
          if rule.rtype = "percentage_dd" then dd_amount * rule.value
          else if rule.rtype = "fixed_file" then rule.value
          else 0
      | none => 0
    (HP_FEE_DEFAULT, incentive_earned)

/-! ### Downstream obligation arithmetic  (app.py:312-334)

The UI computes, after the fee branch, the total customer obligation, the
required down payment (clamped at zero) and the financed amount (clamped at
zero).  This is the straight-line code between the comments
`1. CALCULATE TOTAL CUSTOMER OBLIGATION` and the display block. -/

structure ObligationResult where
  total_customer_obligation : ℚ
  calculated_dp : ℚ
  financed_amount : ℚ
deriving DecidableEq

def ui_obligation (final_cost_by_staff hp_fee_to_charge incentive_earned
    dd_amount : ℚ) : ObligationResult :=
  let total_customer_obligation :=
    final_cost_by_staff + hp_fee_to_charge + incentive_earned
  let remaining_upfront_needed := total_customer_obligation - dd_amount
  let calculated_dp := if remaining_upfront_needed < 0 then 0
    else remaining_upfront_needed
  let down_payment := calculated_dp
  let total_paid := dd_amount + down_payment
  let financed_amount0 := total_customer_obligation - total_paid
  let financed_amount := if financed_amount0 < 0 then 0 else financed_amount0
  { total_customer_obligation := total_customer_obligation
    calculated_dp := calculated_dp
    financed_amount := financed_amount }

/-! ### Theorems for the fee calculator and obligation arithmetic -/

/-- C1: for all non-negative inputs the UI obligation arithmetic satisfies
`required_down_payment = max(0, total_obligation − booking_amount)` where
`total_obligation = negotiated_final_cost + hypothecation_fee + incentive`,
`financed_amount = max(0, total_obligation − booking_amount − required_down_payment)`,
and the financed amount is 0 whenever
`booking_amount + required_down_payment ≥ total_obligation`. -/
theorem ui_obligation_arithmetic (fc fee inc dd : ℚ)
    (hfc : 0 ≤ fc) (hfee : 0 ≤ fee) (hinc : 0 ≤ inc) (hdd : 0 ≤ dd) :
    (ui_obligation fc fee inc dd).total_customer_obligation =
      fc + fee + inc ∧
    (ui_obligation fc fee inc dd).calculated_dp =
      max 0 ((ui_obligation fc fee inc dd).total_customer_obligation - dd) ∧
    (ui_obligation fc fee inc dd).financed_amount =
      max 0 ((ui_obligation fc fee inc dd).total_customer_obligation - dd -
        (ui_obligation fc fee inc dd).calculated_dp) ∧
    (dd + (ui_obligation fc fee inc dd).calculated_dp ≥
        (ui_obligation fc fee inc dd).total_customer_obligation →
      (ui_obligation fc fee inc dd).financed_amount = 0) := by
  have hmax : ∀ x : ℚ, max 0 x = if x < 0 then 0 else x := by
    intro x
    rcases lt_or_le x 0 with h | h
    · rw [if_pos h, max_eq_left h.le]
    · rw [if_neg (not_lt.mpr h), max_eq_right h]
  simp only [ui_obligation, hmax]
  refine ⟨by trivial, by trivial, ?_, ?_⟩
  · split_ifs <;> linarith
  · intro hge
    split_ifs at hge ⊢ <;> linarith

/-- C1 witness at concrete inputs. -/
theorem ui_obligation_arithmetic_witness :
    (0 : ℚ) ≤ 500000 ∧
    ((ui_obligation 500000 500 0 100000).total_customer_obligation =
      500000 + 500 + 0 ∧
     (ui_obligation 500000 500 0 100000).calculated_dp =
      max 0 ((ui_obligation 500000 500 0 100000).total_customer_obligation
        - 100000) ∧
     (ui_obligation 500000 500 0 100000).financed_amount =
      max 0 ((ui_obligation 500000 500 0 100000).total_customer_obligation
        - 100000 - (ui_obligation 500000 500 0 100000).calculated_dp) ∧
     (100000 + (ui_obligation 500000 500 0 100000).calculated_dp ≥
        (ui_obligation 500000 500 0 100000).total_customer_obligation →
      (ui_obligation 500000 500 0 100000).financed_amount = 0)) :=
  ⟨by decide,
   ui_obligation_arithmetic 500000 500 0 100000 (by decide) (by decide)
     (by decide) (by decide)⟩

/-- C3: with the external-financing flag false and financier name "Bank",
the fee calculator returns hypothecation fee 500.00 and incentive 0,
for every booking amount and rule mapping. -/
theorem bank_quotation_fees (dd : ℚ)
    (rules : String → Option IncentiveRule) :
    calculate_finance_fees "Bank" dd false rules =
      (HP_FEE_BANK_QUOTATION, 0) := by
  simp [calculate_finance_fees]

/-- C4: with the external-financing flag true the fee calculator returns
hypothecation fee 2000.00 and incentive 0 for every financier name
(including "Bank"), booking amount and rule mapping: the flag branch is
evaluated first and takes precedence. -/
theorem out_finance_fees (name : String) (dd : ℚ)
    (rules : String → Option IncentiveRule) :
    calculate_finance_fees name dd true rules = (HP_FEE_DEFAULT, 0) := by
  simp [calculate_finance_fees]

/-- C5: with the flag false and a financier other than "Bank", the fee is
2000.00 and the incentive follows the rule: `dd × value` for a
`percentage_dd` rule, `value` for a `fixed_file` rule, and 0 when the
mapping has no rule for the financier (no error is raised). -/
theorem other_financier_fees (name : String) (dd : ℚ)
    (rules : String → Option IncentiveRule) (hname : name ≠ "Bank") :
    (∀ r, rules name = some r → r.rtype = "percentage_dd" →
      calculate_finance_fees name dd false rules =
        (HP_FEE_DEFAULT, dd * r.value)) ∧
    (∀ r, rules name = some r → r.rtype = "fixed_file" →
      calculate_finance_fees name dd false rules =
        (HP_FEE_DEFAULT, r.value)) ∧
    (rules name = none →
      calculate_finance_fees name dd false rules = (HP_FEE_DEFAULT, 0)) := by
  refine ⟨?_, ?_, ?_⟩
  · intro r hr htype
    simp [calculate_finance_fees, hname, hr, htype]
  · intro r hr htype
    have hne : r.rtype ≠ "percentage_dd" := by
      rw [htype]; decide
    simp [calculate_finance_fees, hname, hr, htype, hne]
  · intro hr
    simp [calculate_finance_fees, hname, hr]

/-- C5 witness: a concrete non-"Bank" financier with a percentage rule,
a fixed rule and a missing rule. -/
theorem other_financier_fees_witness :
    ("HDFC" : String) ≠ "Bank" ∧
    calculate_finance_fees "HDFC" 100000 false
      (fun n => if n = "HDFC" then some ⟨"percentage_dd", 1/100⟩ else none) =
      (HP_FEE_DEFAULT, 100000 * (1/100)) := by
  refine ⟨by decide, ?_⟩
  have h := other_financier_fees "HDFC" 100000
    (fun n => if n = "HDFC" then some ⟨"percentage_dd", 1/100⟩ else none)
    (by decide)
  exact h.1 ⟨"percentage_dd", 1/100⟩ (by simp) rfl

/-! ### Python value parsing and formatting

`pyInt` models Python's `int(str)`: surrounding whitespace is stripped, an
optional sign is allowed, and the remainder must be a non-empty run of
decimal digits.  `format05` models the format `f"{n:05d}"`: the decimal
rendering zero-padded to a minimum total width of 5 (the sign, when
present, counts towards the width, as in Python). -/

def pyStrip (l : List Char) : List Char :=
  ((l.dropWhile Char.isWhitespace).reverse.dropWhile Char.isWhitespace).reverse

def digitsToNat (l : List Char) : Nat :=
  l.foldl (fun acc c => acc * 10 + (c.toNat - '0'.toNat)) 0

def parseNatDigits (l : List Char) : Option Nat :=
  if l ≠ [] ∧ l.all Char.isDigit then some (digitsToNat l) else none

def pyInt (s : String) : Option ℤ :=
  match pyStrip s.data with
  | '-' :: rest => (parseNatDigits rest).map (fun n => -(n : ℤ))
  | '+' :: rest => (parseNatDigits rest).map (fun n => (n : ℤ))
  | t => (parseNatDigits t).map (fun n => (n : ℤ))

def padZeros (s : String) (w : Nat) : String :=
  String.mk (List.replicate (w - s.length) '0') ++ s

def format05 (n : ℤ) : String :=
  if n < 0 then "-" ++ padZeros (toString n.natAbs) 4
  else padZeros (toString n.toNat) 5

/-! ### get_next_dc_number  (finance_helper.py:45-79)

The ledger read (`open` / `worksheet` / `col_values(2)`) is an external
effect; its outcome is embedded as an `Except` value: `.ok dc_column`
carries the full `DC_Number` column (header row included, as
`col_values(2)` returns it), `.error e` models any raised exception.  The
current wall-clock time (`pd.Timestamp('now').strftime('%H%M')`) is passed
in as `timestamp_hhmm`. -/

def get_next_dc_number (read_result : Except String (List String))
    (timestamp_hhmm : String) : String :=
  match read_result with
  | .error _ => "DC-ERROR-" ++ timestamp_hhmm
  | .ok dc_column =>
    let next_number : ℤ :=
      if dc_column.length > 1 then
        let dc_numbers := dc_column.drop 1
        let current_numbers := dc_numbers.filterMap
          (fun dc_str => if dc_str = "" then none else pyInt dc_str)
        match current_numbers with
        | [] => 1
        | x :: xs => xs.foldl max x + 1
      else 1
    format05 next_number

/-- C2: for every historical list of ledger column values (the entries
below the header row), the generator returns the 5-digit zero-padded
decimal rendering of `max(values that parse as integers) + 1`, non-numeric
entries being ignored, and returns "00001" when the list is empty or no
entry parses; in particular `["0003","bad","0007"]` yields "00008". -/
theorem dc_number_generation (header ts : String) (hist : List String) :
    (get_next_dc_number (.ok (header :: hist)) ts =
      match (hist.filterMap (fun s => if s = "" then none else pyInt s)).max?
        with
      | some m => format05 (m + 1)
      | none => "00001") ∧
    get_next_dc_number (.ok ["DC_Number", "0003", "bad", "0007"]) ts =
      "00008" ∧
    get_next_dc_number (.ok ["DC_Number"]) ts = "00001" ∧
    get_next_dc_number (.ok [header]) ts = "00001" := by
  refine ⟨?_, rfl, rfl, ?_⟩
  · cases hist with
    | nil =>
      have hlen : ¬((header :: ([] : List String)).length > 1) := by
        simp
      simp only [get_next_dc_number, if_neg hlen, List.filterMap_nil,
        List.max?_nil]
      decide
    | cons h t =>
      have hlen : (header :: h :: t).length > 1 := by
        simp [List.length]
      simp only [get_next_dc_number, if_pos hlen, List.drop_succ_cons,
        List.drop_zero]
      cases hfm : (h :: t).filterMap
          (fun s => if s = "" then none else pyInt s) with
      | nil => decide
      | cons x xs => rfl
  · have hlen : ¬(([header] : List String).length > 1) := by simp
    simp only [get_next_dc_number, if_neg hlen]
    decide

/-- C10: the generator never propagates a ledger-read failure: on any
error it returns "DC-ERROR-" followed by the time stamp, a string which
is not a 5-digit zero-padded decimal (its length always exceeds 5). -/
theorem dc_number_error_fallback (e ts : String) :
    get_next_dc_number (.error e) ts = "DC-ERROR-" ++ ts ∧
    ¬(("DC-ERROR-" ++ ts).length = 5 ∧
      ∀ c ∈ ("DC-ERROR-" ++ ts).data, c.isDigit = true) := by
  refine ⟨rfl, ?_⟩
  rintro ⟨hlen, -⟩
  rw [String.length_append] at hlen
  have h9 : ("DC-ERROR-" : String).length = 9 := rfl
  omega

/-- C10 witness: the fallback at a concrete error and time stamp. -/
theorem dc_number_error_fallback_witness :
    get_next_dc_number (.error "APIError") "1430" = "DC-ERROR-" ++ "1430" ∧
    ¬((("DC-ERROR-" ++ "1430" : String)).length = 5 ∧
      ∀ c ∈ ("DC-ERROR-" ++ "1430" : String).data, c.isDigit = true) :=
  dc_number_error_fallback "APIError" "1430"

/-! ### Python float parsing

`pyFloat` models the finite results of Python's `float(str)` (and of
`pd.to_numeric(..., errors='coerce')` on a cell): surrounding whitespace
stripped, optional sign, digits with an optional decimal point and at
least one digit overall.  Inputs producing non-finite floats ("nan",
"inf") are modelled as parse failures; in both uses below a non-finite
value and a parse failure lead to the same outcome (the cell is not a
positive price / does not contribute to the column maximum). -/

def pyFloatMag (l : List Char) : Option ℚ :=
  let ip := l.takeWhile (· ≠ '.')
  match l.dropWhile (· ≠ '.') with
  | [] => (parseNatDigits ip).map (fun n => (n : ℚ))
  | _ :: frac =>
    if ip.all Char.isDigit ∧ frac.all Char.isDigit ∧ (ip ≠ [] ∨ frac ≠ [])
    then some ((digitsToNat ip : ℚ) +
      (digitsToNat frac : ℚ) / (10 : ℚ) ^ frac.length)
    else none

def pyFloat (s : String) : Option ℚ :=
  match pyStrip s.data with
  | '-' :: rest => (pyFloatMag rest).map (fun q => -q)
  | '+' :: rest => pyFloatMag rest
  | t => pyFloatMag t

/-! ### process_accessories_and_split  (finance_helper.py:117-202)

A BOM row holds up to 10 slots, slot `i` (1-based) being the pair of
cells in columns `str(i)` and `f'{i} PRICE'`.  The row is embedded as a
`List (Option Slot)`: index `idx` (0-based) carries slot `idx+1`, `none`
(or an index beyond the list) models the column pair being absent from
the data frame, and a `nameCell` of `none` models a NaN name cell.  The
firm-master lookup rows are passed in as already-resolved dictionaries
(the source reads them with `.iloc[0].to_dict()`). -/

structure Slot where
  nameCell : Option String
  priceCell : String
deriving DecidableEq

structure AccessoryData where
  name : String
  qty : ℚ
  price : ℚ
  total : ℚ
deriving DecidableEq

structure AccessoryBill where
  firm_id : ℤ
  firm_details : List (String × String)
  accessories : List AccessoryData
  subtotal : ℚ
  tax : ℚ
  grand_total : ℚ
deriving DecidableEq

def slotItem (slot : Option Slot) : Option AccessoryData :=
  match slot with
  | none => none
  | some sl =>
    match sl.nameCell with
    | none => none
    | some nm =>
      if String.mk (pyStrip nm.data) = "" then none
      else
        let acc_name := String.mk (pyStrip nm.data)
        let acc_price := (pyFloat sl.priceCell).getD 0
        if acc_price > 0 then
          some { name := acc_name, qty := 1, price := acc_price,
                 total := 1 * acc_price }
        else none

def process_accessories_and_split (slots : List (Option Slot))
    (firm_1_details firm_2_details : List (String × String)) :
    List AccessoryBill :=
  let kept := fun idx => slotItem (slots.getD idx none)
  let accessories_list_firm_1 := (List.range 4).filterMap kept
  let accessories_list_firm_2 := ((List.range 10).drop 4).filterMap kept
  let subtotal_firm_1 := (accessories_list_firm_1.map (·.total)).sum
  let subtotal_firm_2 := (accessories_list_firm_2.map (·.total)).sum
  let tax_amount_1 := subtotal_firm_1 * GST_RATE_CALC
  let grand_total_1 := subtotal_firm_1 + tax_amount_1
  let tax_amount_2 := subtotal_firm_2 * GST_RATE_CALC
  let grand_total_2 := subtotal_firm_2 + tax_amount_2
  (if grand_total_1 > 0 then
    [{ firm_id := 1, firm_details := firm_1_details,
       accessories := accessories_list_firm_1,
       subtotal := subtotal_firm_1, tax := tax_amount_1,
       grand_total := grand_total_1 }]
   else []) ++
  (if grand_total_2 > 0 then
    [{ firm_id := 2, firm_details := firm_2_details,
       accessories := accessories_list_firm_2,
       subtotal := subtotal_firm_2, tax := tax_amount_2,
       grand_total := grand_total_2 }]
   else [])

/-- Any accessory datum produced from a slot has quantity 1, a positive
price, and line total `qty × price`. -/
lemma slotItem_shape (s : Option Slot) (a : AccessoryData)
    (h : slotItem s = some a) :
    a.qty = 1 ∧ 0 < a.price ∧ a.total = a.qty * a.price := by
  match s with
  | none => simp [slotItem] at h
  | some sl =>
    match hnm : sl.nameCell with
    | none => simp [slotItem, hnm] at h
    | some nm =>
      simp only [slotItem, hnm] at h
      split_ifs at h with h1 h2
      · cases h
        exact ⟨rfl, h2, rfl⟩

/-- A concrete sparse BOM row: names and positive prices in slots 1, 2
and 5, all other slots blank. -/
def exampleRow : List (Option Slot) :=
  [some ⟨some "Seat Cover", "1500"⟩,
   some ⟨some "Floor Mat", "350"⟩,
   some ⟨none, ""⟩, some ⟨none, ""⟩,
   some ⟨some "Helmet", "800"⟩,
   some ⟨none, ""⟩, some ⟨none, ""⟩, some ⟨none, ""⟩,
   some ⟨none, ""⟩, some ⟨none, ""⟩]

/-- C6: for every BOM row the splitter skips slots with no name or
non-positive price, attributes slots 1–4 to firm 1 and 5–10 to firm 2,
computes each firm's subtotal as the sum of its line totals (quantity
fixed at 1), tax = subtotal × configured rate, grand total = subtotal +
tax, emits no bill for a firm with zero grand total, and so returns at
most two bills, each with positive grand total; on the example row with
prices in slots 1, 2, 5 and tax rate 0 it returns exactly two bills —
firm 1 with 2 line items, firm 2 with 1 — each grand total equal to its
subtotal. -/
theorem accessory_split (slots : List (Option Slot))
    (f1d f2d : List (String × String)) :
    (process_accessories_and_split slots f1d f2d).length ≤ 2 ∧
    (∀ b ∈ process_accessories_and_split slots f1d f2d,
      0 < b.grand_total ∧
      b.subtotal = (b.accessories.map AccessoryData.total).sum ∧
      b.tax = b.subtotal * GST_RATE_CALC ∧
      b.grand_total = b.subtotal + b.tax ∧
      (∀ a ∈ b.accessories, a.qty = 1 ∧ a.total = a.qty * a.price) ∧
      ((b.firm_id = 1 ∧ b.accessories =
          (List.range 4).filterMap
            (fun idx => slotItem (slots.getD idx none))) ∨
       (b.firm_id = 2 ∧ b.accessories =
          ((List.range 10).drop 4).filterMap
            (fun idx => slotItem (slots.getD idx none))))) ∧
    (∀ sl : Slot,
      (sl.nameCell = none ∨
       (∀ nm, sl.nameCell = some nm → String.mk (pyStrip nm.data) = "") ∨
       (pyFloat sl.priceCell).getD 0 ≤ 0) →
      slotItem (some sl) = none) ∧
    process_accessories_and_split exampleRow [] [] =
      [{ firm_id := 1, firm_details := [],
         accessories := [⟨"Seat Cover", 1, 1500, 1500⟩,
                         ⟨"Floor Mat", 1, 350, 350⟩],
         subtotal := 1850, tax := 0, grand_total := 1850 },
       { firm_id := 2, firm_details := [],
         accessories := [⟨"Helmet", 1, 800, 800⟩],
         subtotal := 800, tax := 0, grand_total := 800 }] := by
  have key : ∀ b ∈ process_accessories_and_split slots f1d f2d,
      0 < b.grand_total ∧
      b.subtotal = (b.accessories.map AccessoryData.total).sum ∧
      b.tax = b.subtotal * GST_RATE_CALC ∧
      b.grand_total = b.subtotal + b.tax ∧
      ((b.firm_id = 1 ∧ b.accessories =
          (List.range 4).filterMap
            (fun idx => slotItem (slots.getD idx none))) ∨
       (b.firm_id = 2 ∧ b.accessories =
          ((List.range 10).drop 4).filterMap
            (fun idx => slotItem (slots.getD idx none)))) := by
    intro b hb
    simp only [process_accessories_and_split, List.mem_append] at hb
    rcases hb with hb | hb
    · split at hb
      next h1 =>
        simp only [List.mem_singleton] at hb
        subst hb
        exact ⟨h1, rfl, rfl, rfl, Or.inl ⟨rfl, rfl⟩⟩
      next => simp at hb
    · split at hb
      next h2 =>
        simp only [List.mem_singleton] at hb
        subst hb
        exact ⟨h2, rfl, rfl, rfl, Or.inr ⟨rfl, rfl⟩⟩
      next => simp at hb
  refine ⟨?_, ?_, ?_, ?_⟩
  · simp only [process_accessories_and_split]
    split_ifs <;> simp
  · intro b hb
    obtain ⟨hpos, hsub, htax, hgrand, hfirm⟩ := key b hb
    refine ⟨hpos, hsub, htax, hgrand, ?_, hfirm⟩
    intro a ha
    rcases hfirm with ⟨-, hacc⟩ | ⟨-, hacc⟩ <;>
      · rw [hacc] at ha
        obtain ⟨idx, -, hkept⟩ := List.mem_filterMap.mp ha
        obtain ⟨hq, -, ht⟩ := slotItem_shape _ _ hkept
        exact ⟨hq, ht⟩
  · intro sl h
    rcases h with h | h | h
    · simp [slotItem, h]
    · match hnm : sl.nameCell with
      | none => simp [slotItem, hnm]
      | some nm => simp [slotItem, hnm, h nm hnm]
    · match hnm : sl.nameCell with
      | none => simp [slotItem, hnm]
      | some nm =>
        simp only [slotItem, hnm]
        split_ifs with h1 h2
        · rfl
        · exact absurd h2 (not_lt.mpr h)
        · rfl
  · have f1 : (List.range 4).filterMap
        (fun idx => slotItem (exampleRow.getD idx none)) =
        [⟨"Seat Cover", 1, ((1500:ℕ):ℚ), 1 * ((1500:ℕ):ℚ)⟩,
         ⟨"Floor Mat", 1, ((350:ℕ):ℚ), 1 * ((350:ℕ):ℚ)⟩] := rfl
    have f2 : ((List.range 10).drop 4).filterMap
        (fun idx => slotItem (exampleRow.getD idx none)) =
        [⟨"Helmet", 1, ((800:ℕ):ℚ), 1 * ((800:ℕ):ℚ)⟩] := rfl
    simp only [process_accessories_and_split, f1, f2, GST_RATE_CALC]
    norm_num

/-- C6 witness: a concrete blank slot (NaN name cell) is skipped. -/
theorem accessory_split_witness :
    ((⟨none, ""⟩ : Slot).nameCell = none ∨
     (∀ nm, (⟨none, ""⟩ : Slot).nameCell = some nm →
        String.mk (pyStrip nm.data) = "") ∨
     (pyFloat (⟨none, ""⟩ : Slot).priceCell).getD 0 ≤ 0) ∧
    slotItem (some ⟨none, ""⟩) = none :=
  ⟨Or.inl rfl, (accessory_split [] [] []).2.2.1 ⟨none, ""⟩ (Or.inl rfl)⟩

/-! ### Accessory invoice numbering  (finance_helper.py:81-115)

`get_max_accessory_invoice_number` reads one column of the Sales_Records
data frame per firm.  The frame is embedded as the two relevant columns,
`none` modelling an absent column.  `pd.to_numeric(..., errors='coerce')`
followed by `.max()` is `colMaxNumeric`; Python's `int(...)` on a float is
truncation towards zero (`pyTrunc`). -/

structure SalesRecordsDF where
  acc_inv_1 : Option (List String)
  acc_inv_2 : Option (List String)

def colMaxNumeric (col : List String) : Option ℚ :=
  (col.filterMap pyFloat).max?

def pyTrunc (q : ℚ) : ℤ := if 0 ≤ q then ⌊q⌋ else ⌈q⌉

def get_max_accessory_invoice_number (df : SalesRecordsDF)
    (firm_id : ℤ) : ℤ :=
  if firm_id = 1 then
    -- inv_col = 'Acc_Inv_1_No', start_seq = 1000 (base for KM series)
    match df.acc_inv_1 with
    | none => 1000
    | some col =>
      match colMaxNumeric col with
      | none => 1000
      | some m => if 1000 ≤ m then pyTrunc m else 1000
  else if firm_id = 2 then
    -- inv_col = 'Acc_Inv_2_No', start_seq = 2000 (base for VA series)
    match df.acc_inv_2 with
    | none => 2000
    | some col =>
      match colMaxNumeric col with
      | none => 2000
      | some m => if 2000 ≤ m then pyTrunc m else 2000
  else 0

def INVOICE_PREFIXES (firm_id : ℤ) : String :=
  if firm_id = 1 then "KM" else if firm_id = 2 then "VA" else "UNK"

def generate_accessory_invoice_number (df : SalesRecordsDF)
    (firm_id : ℤ) : String × ℤ :=
  let pfx := INVOICE_PREFIXES firm_id
  let max_inv_no := get_max_accessory_invoice_number df firm_id
  let sequential_part := max_inv_no + 1
  (pfx ++ "-" ++ toString sequential_part, sequential_part)

/-- C7: accessory invoice numbering is two independent per-firm series:
firm 1 reads only the Acc_Inv_1_No column (base 1000, prefix "KM"),
firm 2 only the Acc_Inv_2_No column (base 2000, prefix "VA"); the next
sequential part is `max(recorded numeric values) + 1` when that max is at
least the base, and `base + 1` otherwise, including when no numeric
record exists (empty or absent column, or no value parses). -/
theorem accessory_invoice_numbering
    (c1 c2 c2x c1x : Option (List String)) (col : List String)
    (hint : ∀ q ∈ col.filterMap pyFloat, ∃ z : ℤ, (z : ℚ) = q) :
    generate_accessory_invoice_number ⟨c1, c2⟩ 1 =
      generate_accessory_invoice_number ⟨c1, c2x⟩ 1 ∧
    generate_accessory_invoice_number ⟨c1, c2⟩ 2 =
      generate_accessory_invoice_number ⟨c1x, c2⟩ 2 ∧
    (generate_accessory_invoice_number ⟨c1, c2⟩ 1).1 =
      "KM-" ++ toString (generate_accessory_invoice_number ⟨c1, c2⟩ 1).2 ∧
    (generate_accessory_invoice_number ⟨c1, c2⟩ 2).1 =
      "VA-" ++ toString (generate_accessory_invoice_number ⟨c1, c2⟩ 2).2 ∧
    (generate_accessory_invoice_number ⟨none, c2⟩ 1).2 = 1001 ∧
    (generate_accessory_invoice_number ⟨c1, none⟩ 2).2 = 2001 ∧
    ((colMaxNumeric col = none →
      (generate_accessory_invoice_number ⟨some col, c2⟩ 1).2 = 1001 ∧
      (generate_accessory_invoice_number ⟨c1, some col⟩ 2).2 = 2001) ∧
     (∀ m, colMaxNumeric col = some m →
      (m < 1000 →
        (generate_accessory_invoice_number ⟨some col, c2⟩ 1).2 = 1001) ∧
      (1000 ≤ m →
        ((generate_accessory_invoice_number ⟨some col, c2⟩ 1).2 : ℚ) =
          m + 1) ∧
      (m < 2000 →
        (generate_accessory_invoice_number ⟨c1, some col⟩ 2).2 = 2001) ∧
      (2000 ≤ m →
        ((generate_accessory_invoice_number ⟨c1, some col⟩ 2).2 : ℚ) =
          m + 1))) := by
  have hmem : ∀ m, colMaxNumeric col = some m → ∃ z : ℤ, (z : ℚ) = m := by
    intro m hm
    exact hint m (List.max?_mem max_choice hm)
  have htrunc : ∀ m, colMaxNumeric col = some m → 0 ≤ m →
      (pyTrunc m : ℚ) = m := by
    intro m hm h0
    obtain ⟨z, hz⟩ := hmem m hm
    rw [pyTrunc, if_pos h0, ← hz, Int.floor_intCast]
  refine ⟨rfl, rfl, rfl, rfl, rfl, rfl, ?_, ?_⟩
  · intro hnone
    simp only [generate_accessory_invoice_number,
      get_max_accessory_invoice_number, hnone]
    exact ⟨rfl, rfl⟩
  · intro m hm
    refine ⟨?_, ?_, ?_, ?_⟩
    · intro hlt
      simp only [generate_accessory_invoice_number,
        get_max_accessory_invoice_number, hm, if_neg (not_le.mpr hlt)]
      rfl
    · intro hge
      have ht := htrunc m hm (le_trans (by norm_num) hge)
      simp [generate_accessory_invoice_number,
        get_max_accessory_invoice_number, hm, hge, ht]
    · intro hlt
      simp only [generate_accessory_invoice_number,
        get_max_accessory_invoice_number, hm, if_neg (not_le.mpr hlt)]
      rfl
    · intro hge
      have ht := htrunc m hm (le_trans (by norm_num) hge)
      simp [generate_accessory_invoice_number,
        get_max_accessory_invoice_number, hm, hge, ht]

/-- C7 witness: a concrete Acc_Inv_1_No column with values 1005, a
non-numeric entry and 1010 yields the next sequential part 1011. -/
theorem accessory_invoice_numbering_witness :
    (∀ q ∈ (["1005", "bad", "1010"] : List String).filterMap pyFloat,
      ∃ z : ℤ, (z : ℚ) = q) ∧
    (generate_accessory_invoice_number
      ⟨some ["1005", "bad", "1010"], none⟩ 1).2 = 1011 := by
  have hfm : (["1005", "bad", "1010"] : List String).filterMap pyFloat =
      [((1005:ℕ):ℚ), ((1010:ℕ):ℚ)] := rfl
  have hint : ∀ q ∈ (["1005", "bad", "1010"] : List String).filterMap
      pyFloat, ∃ z : ℤ, (z : ℚ) = q := by
    rw [hfm]
    intro q hq
    rcases List.mem_cons.mp hq with rfl | hq
    · exact ⟨1005, by push_cast; ring⟩
    rcases List.mem_cons.mp hq with rfl | hq
    · exact ⟨1010, by push_cast; ring⟩
    · simp at hq
  have hcol : colMaxNumeric ["1005", "bad", "1010"] =
      some ((1010:ℕ):ℚ) := by
    rw [colMaxNumeric, hfm, List.max?_cons']
    simp only [List.foldl]
    rw [max_eq_right (by norm_num : ((1005:ℕ):ℚ) ≤ ((1010:ℕ):ℚ))]
  have h := accessory_invoice_numbering none none none none
    ["1005", "bad", "1010"] hint
  have hq := ((h.2.2.2.2.2.2.2 _ hcol).2.1 (by norm_num))
  refine ⟨hint, ?_⟩
  have : (((1010:ℕ):ℚ) + 1) = ((1011 : ℤ) : ℚ) := by push_cast; ring
  rw [this] at hq
  exact_mod_cast hq

/-! ### The SalesOrder aggregate  (order.py:19-109)

All constructor-derived fields are embedded.  `banker_name` is
`Option String`: `none` models a Python `None` (an absent value), the
constructor's default is `""`.  The `accessory_bills` list is only
consumed by the PDF renderer (out of scope) and is omitted.  Export
values are heterogeneous (strings, floats, ints), captured by `Value`. -/

structure VehicleDetails where
  model : String
  color : String
  total_price : ℚ
  orp : ℚ
  tax : ℚ
deriving DecidableEq

inductive Value where
  | str (s : String)
  | num (q : ℚ)
  | int (z : ℤ)
deriving DecidableEq

structure SalesOrder where
  customer_name : String
  place : String
  phone : String
  sales_staff : String
  banker_name : Option String
  dc_number : String
  vehicle : VehicleDetails
  listed_price : ℚ
  orp_price : ℚ
  tax_component : ℚ
  final_cost : ℚ
  discount : ℚ
  vehicle_color_name : String
  sale_type : String
  financier_name : String
  executive_name : String
  incentive_earned : ℚ
  hp_fee : ℚ
  dd_amount : ℚ
  down_payment : ℚ
  remaining_finance_amount : ℚ
  bill_1_inv_seq : ℤ
  bill_2_inv_seq : ℤ
deriving DecidableEq

def SalesOrder.init (customer_name place phone : String)
    (vehicle_details : VehicleDetails) (final_cost_by_staff : ℚ)
    (sales_staff financier_name executive_name vehicle_color_name : String)
    (hp_fee_to_charge incentive_earned : ℚ)
    (banker_name : Option String) (dc_number : String)
    (bill_1_inv_seq bill_2_inv_seq : ℤ) : SalesOrder :=
  { customer_name := customer_name
    place := place
    phone := phone
    sales_staff := sales_staff
    banker_name := banker_name
    dc_number := dc_number
    vehicle := vehicle_details
    listed_price := vehicle_details.total_price
    orp_price := vehicle_details.orp
    tax_component := vehicle_details.tax
    final_cost := final_cost_by_staff
    discount := vehicle_details.total_price - final_cost_by_staff
    vehicle_color_name := vehicle_color_name
    sale_type := "Cash"
    financier_name := financier_name
    executive_name := executive_name
    incentive_earned := incentive_earned
    hp_fee := hp_fee_to_charge
    dd_amount := 0
    down_payment := 0
    remaining_finance_amount := 0
    bill_1_inv_seq := bill_1_inv_seq
    bill_2_inv_seq := bill_2_inv_seq }

/-- The constructor applied with Python's default arguments
(`banker_name=""`, `dc_number="N/A"`, both invoice sequences 0,
no accessory bills). -/
def SalesOrder.initDefaults (customer_name place phone : String)
    (vehicle_details : VehicleDetails) (final_cost_by_staff : ℚ)
    (sales_staff financier_name executive_name vehicle_color_name : String)
    (hp_fee_to_charge incentive_earned : ℚ) : SalesOrder :=
  SalesOrder.init customer_name place phone vehicle_details
    final_cost_by_staff sales_staff financier_name executive_name
    vehicle_color_name hp_fee_to_charge incentive_earned
    (some "") "N/A" 0 0

def SalesOrder.set_finance_details (o : SalesOrder)
    (dd_amount down_payment : ℚ) : SalesOrder :=
  let total_customer_cost := o.final_cost + o.hp_fee + o.incentive_earned
  { o with
    sale_type := "Finance"
    dd_amount := dd_amount
    down_payment := down_payment
    remaining_finance_amount :=
      total_customer_cost - dd_amount - down_payment }

/-- Python truthiness of an optional string: `None` and `""` are falsy. -/
def pyTruthyStr (b : Option String) : Bool :=
  match b with
  | none => false
  | some s => s ≠ ""

def SalesOrder.get_data_for_export (o : SalesOrder)
    (ist_timestamp_str : String) (bill_1_inv_seq bill_2_inv_seq : ℤ) :
    List (String × Value) :=
  [("Timestamp", .str ist_timestamp_str),
   ("DC_Number", .str o.dc_number),
   ("Sales_Staff", .str o.sales_staff),
   ("Financier_Company", .str o.financier_name),
   ("Finance_Executive", .str o.executive_name),
   ("Banker_Name", .str (if pyTruthyStr o.banker_name then
      o.banker_name.getD "" else "")),
   ("Sale_Type", .str o.sale_type),
   ("Customer_Name", .str o.customer_name),
   ("Phone_Number", .str o.phone),
   ("Place", .str o.place),
   ("Model", .str o.vehicle.model),
   ("Variant", .str o.vehicle.color),
   ("Paint_Color", .str o.vehicle_color_name),
   ("Price_ORP", .num o.orp_price),
   ("Price_Listed_Total", .num o.listed_price),
   ("Price_Negotiated_Final", .num o.final_cost),
   ("Discount_Given", .num o.discount),
   ("Charge_HP_Fee", .num o.hp_fee),
   ("Charge_Incentive", .num o.incentive_earned),
   ("Payment_DD", .num o.dd_amount),
   ("Payment_DownPayment", .num o.down_payment),
   ("Acc_Inv_1_No", .int bill_1_inv_seq),
   ("Acc_Inv_2_No", .int bill_2_inv_seq)]

/-- The fixed key set of the export record, in ledger column order. -/
def exportKeys : List String :=
  ["Timestamp", "DC_Number", "Sales_Staff", "Financier_Company",
   "Finance_Executive", "Banker_Name", "Sale_Type", "Customer_Name",
   "Phone_Number", "Place", "Model", "Variant", "Paint_Color",
   "Price_ORP", "Price_Listed_Total", "Price_Negotiated_Final",
   "Discount_Given", "Charge_HP_Fee", "Charge_Incentive", "Payment_DD",
   "Payment_DownPayment", "Acc_Inv_1_No", "Acc_Inv_2_No"]

/-- C8: for every order and every booking amount and down payment, the
`set_finance_details` transition stores exactly
`negotiated_final_cost + fee + incentive − booking_amount − down_payment`,
with no flooring at zero inside the aggregate — the stored amount can be
negative (witnessed by a concrete overpaid order); the zero-clamp exists
only in the UI-layer computation `ui_obligation`. -/
theorem set_finance_details_no_clamp (o : SalesOrder) (dd dp : ℚ) :
    (o.set_finance_details dd dp).remaining_finance_amount =
      o.final_cost + o.hp_fee + o.incentive_earned - dd - dp ∧
    (o.set_finance_details dd dp).sale_type = "Finance" ∧
    (∃ o' : SalesOrder, ∃ dd' dp' : ℚ,
      (o'.set_finance_details dd' dp').remaining_finance_amount < 0) ∧
    (∀ fc fee inc b : ℚ,
      (ui_obligation fc fee inc b).financed_amount =
        if fc + fee + inc - (b + (ui_obligation fc fee inc b).calculated_dp)
            < 0 then 0
        else fc + fee + inc -
          (b + (ui_obligation fc fee inc b).calculated_dp)) := by
  refine ⟨rfl, rfl, ?_, fun fc fee inc b => rfl⟩
  refine ⟨SalesOrder.initDefaults "" "" "" ⟨"", "", 0, 0, 0⟩ 0 "" "" "" ""
    0 0, 1, 0, ?_⟩
  norm_num [SalesOrder.set_finance_details, SalesOrder.initDefaults,
    SalesOrder.init]

/-- C9: the export view is a single flat key→value record with the fixed
key set, for every order; an absent (`None`) or empty banker name is
exported as the empty string under its key rather than the key being
omitted; the accessory invoice number keys are always present, and an
order built with the constructor defaults (no accessory bills) carries 0
in both. -/
theorem export_view_fixed_keys (o : SalesOrder) (ts : String)
    (s1 s2 : ℤ) :
    (o.get_data_for_export ts s1 s2).map Prod.fst = exportKeys ∧
    (o.banker_name = none ∨ o.banker_name = some "" →
      ("Banker_Name", Value.str "") ∈ o.get_data_for_export ts s1 s2) ∧
    ("Acc_Inv_1_No", Value.int s1) ∈ o.get_data_for_export ts s1 s2 ∧
    ("Acc_Inv_2_No", Value.int s2) ∈ o.get_data_for_export ts s1 s2 ∧
    (∀ cn pl ph vd fc ss fn en vcn fee inc,
      (SalesOrder.initDefaults cn pl ph vd fc ss fn en vcn
        fee inc).bill_1_inv_seq = 0 ∧
      (SalesOrder.initDefaults cn pl ph vd fc ss fn en vcn
        fee inc).bill_2_inv_seq = 0) := by
  refine ⟨rfl, ?_, ?_, ?_, fun _ _ _ _ _ _ _ _ _ _ _ => ⟨rfl, rfl⟩⟩
  · intro h
    have hfalse : pyTruthyStr o.banker_name = false := by
      rcases h with h | h <;> simp [pyTruthyStr, h]
    simp [SalesOrder.get_data_for_export, hfalse]
  · simp [SalesOrder.get_data_for_export]
  · simp [SalesOrder.get_data_for_export]

/-- C9 witness: a concrete order with a `None` banker name exports the
empty string under Banker_Name. -/
theorem export_view_fixed_keys_witness :
    ((SalesOrder.init "Asha" "Pune" "99" ⟨"M1", "V1", 100, 90, 10⟩ 95
        "S" "F" "E" "Red" 2000 0 none "00001" 0 0).banker_name = none ∨
     (SalesOrder.init "Asha" "Pune" "99" ⟨"M1", "V1", 100, 90, 10⟩ 95
        "S" "F" "E" "Red" 2000 0 none "00001" 0 0).banker_name =
       some "") ∧
    ("Banker_Name", Value.str "") ∈
      (SalesOrder.init "Asha" "Pune" "99" ⟨"M1", "V1", 100, 90, 10⟩ 95
        "S" "F" "E" "Red" 2000 0 none "00001" 0 0).get_data_for_export
        "2026-10-12" 0 0 :=
  ⟨Or.inl rfl,
   (export_view_fixed_keys
      (SalesOrder.init "Asha" "Pune" "99" ⟨"M1", "V1", 100, 90, 10⟩ 95
        "S" "F" "E" "Red" 2000 0 none "00001" 0 0)
      "2026-10-12" 0 0).2.1 (Or.inl rfl)⟩

end DCGen
